import Mathlib

/-!
Verification of the frame-resource engine of the D3D12 GPU backend
(src/src/gpu/d3d12/SDL_gpu_d3d12.c), as a shallow embedding in Lean 4.

Machine integers of the C source are modelled as Nat; where 32-bit
wrap-around matters it is written explicitly.  Mutable C structures become
immutable Lean structures passed and returned functionally; pointers into
device-owned arrays become indices, as the design notes of the project
suggest for languages without shared ownership.  Native-allocation failure
(calloc or CreateCommittedResource returning null) is modelled by an
explicit Boolean parameter on the operations that allocate.
-/

/-! ## Usage flags and resource states (C3 state tracker) -/

/-- Texture usage bitmask SDL_GpuTextureUsageFlagBits, one field per bit. -/
structure TextureUsageFlags where
  sampler : Bool
  colorTarget : Bool
  depthStencilTarget : Bool
  graphicsStorageRead : Bool
  graphicsStorageWrite : Bool
  computeStorageRead : Bool
  computeStorageWrite : Bool
deriving DecidableEq

/-- Buffer usage bitmask SDL_GpuBufferUsageFlagBits, one field per bit. -/
structure BufferUsageFlags where
  vertex : Bool
  index : Bool
  indirect : Bool
  graphicsStorageRead : Bool
  graphicsStorageWrite : Bool
  computeStorageRead : Bool
  computeStorageWrite : Bool
deriving DecidableEq

/-- The D3D12_RESOURCE_STATES values the default-state functions return. -/
inductive ResourceState where
  | allShaderResource
  | renderTarget
  | depthWrite
  | nonPixelShaderResource
  | unorderedAccess
  | vertexAndConstantBuffer
  | indexBuffer
  | indirectArgument
deriving DecidableEq

/-- Embeds D3D12_INTERNAL_DefaultTextureResourceState (lines 1404-1424):
an if-else chain over the usage bits, order significant, with the
all-shader-resource fallback of the error branch. -/
def D3D12_INTERNAL_DefaultTextureResourceState (usageFlags : TextureUsageFlags) : ResourceState :=
  if usageFlags.sampler then ResourceState.allShaderResource
  else if usageFlags.graphicsStorageRead then ResourceState.allShaderResource
  else if usageFlags.colorTarget then ResourceState.renderTarget
  else if usageFlags.depthStencilTarget then ResourceState.depthWrite
  else if usageFlags.computeStorageRead then ResourceState.nonPixelShaderResource
  else if usageFlags.computeStorageWrite then ResourceState.unorderedAccess
  else ResourceState.allShaderResource

/-- Embeds D3D12_INTERNAL_DefaultBufferResourceState (lines 1450-1469),
with the vertex-and-constant-buffer fallback of the error branch. -/
def D3D12_INTERNAL_DefaultBufferResourceState (usageFlags : BufferUsageFlags) : ResourceState :=
  if usageFlags.vertex then ResourceState.vertexAndConstantBuffer
  else if usageFlags.index then ResourceState.indexBuffer
  else if usageFlags.indirect then ResourceState.indirectArgument
  else if usageFlags.graphicsStorageRead then ResourceState.allShaderResource
  else if usageFlags.computeStorageRead then ResourceState.nonPixelShaderResource
  else if usageFlags.computeStorageWrite then ResourceState.unorderedAccess
  else ResourceState.vertexAndConstantBuffer

/-- Modelled from the words of the specification table in section 4.3:
first matching row, in the priority order the claim lists, for textures.
Returns none when no row matches. -/
def specTextureDefaultState (usageFlags : TextureUsageFlags) : Option ResourceState :=
  if usageFlags.sampler || usageFlags.graphicsStorageRead then
    some ResourceState.allShaderResource
  else if usageFlags.colorTarget then some ResourceState.renderTarget
  else if usageFlags.depthStencilTarget then some ResourceState.depthWrite
  else if usageFlags.computeStorageRead then some ResourceState.nonPixelShaderResource
  else if usageFlags.computeStorageWrite then some ResourceState.unorderedAccess
  else none

/-- Modelled from the words of the specification table in section 4.3:
first matching row for buffers (vertex, then index, then indirect, then
graphics-storage-read, then compute-storage-read, then
compute-storage-write). -/
def specBufferDefaultState (usageFlags : BufferUsageFlags) : Option ResourceState :=
  if usageFlags.vertex then some ResourceState.vertexAndConstantBuffer
  else if usageFlags.index then some ResourceState.indexBuffer
  else if usageFlags.indirect then some ResourceState.indirectArgument
  else if usageFlags.graphicsStorageRead then some ResourceState.allShaderResource
  else if usageFlags.computeStorageRead then some ResourceState.nonPixelShaderResource
  else if usageFlags.computeStorageWrite then some ResourceState.unorderedAccess
  else none

/-! ## Staging descriptor heaps (C8, C10) -/

/-- SDL_MAX_UINT32, the invalid descriptor index. -/
def SDL_MAX_UINT32 : Nat := 4294967295

/-- Embeds the staging-heap fields of D3D12DescriptorHeap used by the CPU
allocator.  The free-list stack inactiveDescriptorIndices is a C array
written at inactiveDescriptorCount and read at inactiveDescriptorCount - 1;
it is modelled as a list whose head is the most recently pushed index. -/
structure D3D12DescriptorHeap where
  maxDescriptors : Nat
  descriptorSize : Nat
  descriptorHeapCPUStart : Nat
  currentDescriptorIndex : Nat
  inactiveDescriptorIndices : List Nat
deriving DecidableEq

/-- Embeds D3D12CPUDescriptor: the owning staging heap (the renderer keeps
one heap per native kind; the heap pointer becomes an index into that
family), the cached CPU handle and the slot index. -/
structure D3D12CPUDescriptor where
  heap : Option Nat
  cpuHandle : Nat
  cpuHandleIndex : Nat
deriving DecidableEq

/-- Embeds D3D12_INTERNAL_AssignCpuDescriptorHandle (lines 2369-2399):
pop the free list if non-empty, otherwise bump the cursor, otherwise log
and hand back the invalid descriptor (index SDL_MAX_UINT32, null handle)
leaving the heap untouched.  The heap field of the descriptor is assigned
before the branch, as in the source. -/
def D3D12_INTERNAL_AssignCpuDescriptorHandle (heapId : Nat) (h : D3D12DescriptorHeap) :
    D3D12DescriptorHeap × D3D12CPUDescriptor :=
  match h.inactiveDescriptorIndices with
  | i :: rest =>
      ({ h with inactiveDescriptorIndices := rest },
       { heap := some heapId
         cpuHandleIndex := i
         cpuHandle := h.descriptorHeapCPUStart + i * h.descriptorSize })
  | [] =>
      if h.currentDescriptorIndex < h.maxDescriptors then
        ({ h with currentDescriptorIndex := h.currentDescriptorIndex + 1 },
         { heap := some heapId
           cpuHandleIndex := h.currentDescriptorIndex
           cpuHandle := h.descriptorHeapCPUStart + h.currentDescriptorIndex * h.descriptorSize })
      else
        (h, { heap := some heapId, cpuHandle := 0, cpuHandleIndex := SDL_MAX_UINT32 })

/-- Embeds D3D12_INTERNAL_ReleaseCpuDescriptorHandle (lines 888-904) over
the family of staging heaps of the renderer: when the descriptor still
names a heap its index is pushed on that heap, and in every case the
descriptor fields are re-assigned to the invalidated values. -/
def D3D12_INTERNAL_ReleaseCpuDescriptorHandle (heaps : Nat → D3D12DescriptorHeap)
    (d : D3D12CPUDescriptor) : (Nat → D3D12DescriptorHeap) × D3D12CPUDescriptor :=
  (match d.heap with
   | some hid => fun k =>
       if k = hid then
         { heaps hid with
             inactiveDescriptorIndices := d.cpuHandleIndex :: (heaps hid).inactiveDescriptorIndices }
       else heaps k
   | none => heaps,
   { heap := none, cpuHandle := 0, cpuHandleIndex := SDL_MAX_UINT32 })

/-! ## Resource model and cycling engine (C1, C9) -/

/-- D3D12BufferType (lines 153-159). -/
inductive D3D12BufferType where
  | gpu
  | uniform
  | upload
  | download
deriving DecidableEq

/-- Embeds the cycling-relevant fields of D3D12Buffer: the creation
parameters recorded by D3D12_INTERNAL_CreateBuffer, the atomic in-flight
referenceCount, and the transitioned flag flipped by
D3D12_INTERNAL_BufferBarrier. -/
structure D3D12Buffer where
  usageFlags : BufferUsageFlags
  size : Nat
  type : D3D12BufferType
  referenceCount : Nat
  transitioned : Bool
deriving DecidableEq

/-- Embeds D3D12_INTERNAL_CreateBuffer (line 2928) at the granularity the
cycling engine observes: a fresh buffer with the requested parameters, a
zero reference count and the transitioned flag clear (calloc-zeroed). -/
def D3D12_INTERNAL_CreateBuffer (usageFlags : BufferUsageFlags) (size : Nat)
    (type : D3D12BufferType) : D3D12Buffer :=
  { usageFlags := usageFlags, size := size, type := type
    referenceCount := 0, transitioned := false }

/-- Embeds D3D12BufferContainer: the stored creation parameters, the list
of concrete buffers, and the activeBuffer pointer as an index into it. -/
structure D3D12BufferContainer where
  usageFlags : BufferUsageFlags
  size : Nat
  type : D3D12BufferType
  buffers : List D3D12Buffer
  activeIndex : Nat
deriving DecidableEq

/-- The buffer the activeBuffer pointer designates. -/
def activeBuffer (c : D3D12BufferContainer) : D3D12Buffer :=
  c.buffers.getD c.activeIndex (D3D12_INTERNAL_CreateBuffer c.usageFlags c.size c.type)

/-- The scan loop of D3D12_INTERNAL_CycleActiveBuffer (lines 3615-3621):
index of the first buffer whose reference count is zero. -/
def firstZeroRefIndex : List D3D12Buffer → Option Nat
  | [] => none
  | b :: rest =>
      if b.referenceCount == 0 then some 0
      else (firstZeroRefIndex rest).map (· + 1)

/-- Embeds D3D12_INTERNAL_CycleActiveBuffer (lines 3610-3655): reuse the
first zero-reference buffer if one exists, otherwise create a new buffer
from the stored usage flags, size and type, append it and make it active;
when creation fails (createOk = false) only an error is logged and the
container is returned unchanged. -/
def D3D12_INTERNAL_CycleActiveBuffer (createOk : Bool) (c : D3D12BufferContainer) :
    D3D12BufferContainer :=
  match firstZeroRefIndex c.buffers with
  | some i => { c with activeIndex := i }
  | none =>
      if createOk then
        { c with
            buffers := c.buffers ++ [D3D12_INTERNAL_CreateBuffer c.usageFlags c.size c.type]
            activeIndex := c.buffers.length }
      else c

/-- Embeds the CPU-visible effect of D3D12_INTERNAL_BufferTransitionFromDefaultUsage
(lines 1488-1498): D3D12_INTERNAL_BufferBarrier sets transitioned on the
active buffer (the emitted native barrier has no CPU-side state). -/
def markActiveTransitioned (c : D3D12BufferContainer) : D3D12BufferContainer :=
  { c with buffers := c.buffers.set c.activeIndex { activeBuffer c with transitioned := true } }

/-- Embeds D3D12_INTERNAL_PrepareBufferForWrite (lines 3657-3677): cycle
when requested and the active buffer is in flight, then transition the
active buffer from its default usage. -/
def D3D12_INTERNAL_PrepareBufferForWrite (createOk : Bool) (cycle : Bool)
    (c : D3D12BufferContainer) : D3D12BufferContainer :=
  let c1 :=
    if cycle = true ∧ 0 < (activeBuffer c).referenceCount then
      D3D12_INTERNAL_CycleActiveBuffer createOk c
    else c
  markActiveTransitioned c1

/-- Embeds the cycling-relevant fields of SDL_GpuTextureCreateInfo. -/
structure TextureCreateInfo where
  width : Nat
  height : Nat
  depth : Nat
  layerCount : Nat
  levelCount : Nat
  usageFlags : TextureUsageFlags
deriving DecidableEq

/-- Embeds a concrete D3D12Texture at cycling granularity: the per
sub-resource atomic reference counts, in sub-resource order. -/
structure D3D12Texture where
  subresourceRefCounts : List Nat
deriving DecidableEq

/-- Embeds D3D12_INTERNAL_CreateTexture as the cycling engine observes it:
layerCount times levelCount sub-resources, each with reference count zero. -/
def D3D12_INTERNAL_CreateTexture (info : TextureCreateInfo) : D3D12Texture :=
  { subresourceRefCounts := List.replicate (info.layerCount * info.levelCount) 0 }

/-- The summed reference count of a concrete texture, as computed by the
loop at lines 3532-3535. -/
def refCountTotal (t : D3D12Texture) : Nat :=
  t.subresourceRefCounts.sum

/-- Embeds D3D12TextureContainer: stored create-info, the canBeCycled
flag (false for swapchain textures), the texture list and the
activeTexture pointer as an index. -/
structure D3D12TextureContainer where
  info : TextureCreateInfo
  canBeCycled : Bool
  textures : List D3D12Texture
  activeIndex : Nat
deriving DecidableEq

/-- The texture the activeTexture pointer designates. -/
def activeTexture (c : D3D12TextureContainer) : D3D12Texture :=
  c.textures.getD c.activeIndex (D3D12_INTERNAL_CreateTexture c.info)

/-- Embeds D3D12_INTERNAL_CalcSubresource (lines 1342-1348). -/
def D3D12_INTERNAL_CalcSubresource (mipLevel layer numLevels : Nat) : Nat :=
  mipLevel + layer * numLevels

/-- Embeds D3D12_INTERNAL_FetchTextureSubresource (lines 3509-3519) at the
granularity the claims observe: the reference count of the sub-resource of
the active texture at (layer, level). -/
def D3D12_INTERNAL_FetchTextureSubresource (c : D3D12TextureContainer)
    (layer level : Nat) : Nat :=
  (activeTexture c).subresourceRefCounts.getD
    (D3D12_INTERNAL_CalcSubresource level layer c.info.levelCount) 0

/-- The scan loop of D3D12_INTERNAL_CycleActiveTexture (lines 3529-3541):
index of the first texture whose summed reference count is zero. -/
def firstZeroTotalIndex : List D3D12Texture → Option Nat
  | [] => none
  | t :: rest =>
      if refCountTotal t == 0 then some 0
      else (firstZeroTotalIndex rest).map (· + 1)

/-- Embeds D3D12_INTERNAL_CycleActiveTexture (lines 3521-3573): reuse the
first texture whose summed reference count is zero, otherwise create a new
texture from the stored create-info, append it and make it active; when
creation fails the container is returned unchanged after logging. -/
def D3D12_INTERNAL_CycleActiveTexture (createOk : Bool) (c : D3D12TextureContainer) :
    D3D12TextureContainer :=
  match firstZeroTotalIndex c.textures with
  | some i => { c with activeIndex := i }
  | none =>
      if createOk then
        { c with
            textures := c.textures ++ [D3D12_INTERNAL_CreateTexture c.info]
            activeIndex := c.textures.length }
      else c

/-- Embeds D3D12_INTERNAL_PrepareTextureSubresourceForWrite (lines
3575-3608): cycle when the container can be cycled, cycling was requested
and the fetched sub-resource is in flight; the following transition has no
CPU-side texture state. -/
def D3D12_INTERNAL_PrepareTextureSubresourceForWrite (createOk : Bool)
    (c : D3D12TextureContainer) (layer level : Nat) (cycle : Bool) :
    D3D12TextureContainer :=
  if c.canBeCycled = true ∧ cycle = true ∧
      0 < D3D12_INTERNAL_FetchTextureSubresource c layer level then
    D3D12_INTERNAL_CycleActiveTexture createOk c
  else c

/-! ## Uniform-buffer sub-allocator (C2, C5, C7)

The pool element size UNIFORM_BUFFER_SIZE is defined in SDL_sysgpu.h,
which is not part of the sources here; it stays a parameter named size.
Backing upload buffers are identified by a Nat drawn from a fresh counter:
within one recording every wrapper handed out by
D3D12_INTERNAL_AcquireUniformBufferFromPool is a distinct object, whether
popped from the pool or freshly created, so fresh identifiers model the
pool faithfully at command-buffer scope.  The mapped byte memory of all
backing buffers is one function of (buffer id, offset). -/

/-- SDL_GpuShaderStage together with the three per-stage slot arrays it
selects in D3D12_INTERNAL_PushUniformData. -/
inductive ShaderStage where
  | vertex
  | fragment
  | compute
deriving DecidableEq

/-- Embeds D3D12UniformBuffer: backing-buffer identity plus the write
cursor, the draw-offset snapshot and the current block size. -/
structure D3D12UniformBuffer where
  id : Nat
  writeOffset : Nat
  drawOffset : Nat
  currentBlockSize : Nat
deriving DecidableEq

/-- Embeds the uniform-buffer related state of D3D12CommandBuffer together
with the renderer-owned buffer memory: the per-stage wrapper arrays, the
needs-rebind flags, the root CBV most recently set for each slot (as the
pair of backing-buffer id and byte offset standing for
virtualAddress + offset), the declared uniform counts of the current
graphics pipeline, the mapped-state and byte contents of every backing
buffer, and the fresh-identifier counter. -/
structure UniformState where
  nextId : Nat
  mem : Nat → Nat → Nat
  mapped : Nat → Bool
  uniformBuffers : ShaderStage → Nat → Option D3D12UniformBuffer
  needBind : ShaderStage → Nat → Bool
  boundCBV : ShaderStage → Nat → Option (Nat × Nat)
  vertexUniformBufferCount : Nat
  fragmentUniformBufferCount : Nat

/-- Replaces the wrapper stored for one (stage, slot) pair. -/
def setSlot (s : UniformState) (stage : ShaderStage) (slotIndex : Nat)
    (u : D3D12UniformBuffer) : UniformState :=
  { s with uniformBuffers := fun a b =>
      if a = stage ∧ b = slotIndex then some u else s.uniformBuffers a b }

/-- Sets or clears the needs-rebind flag of one (stage, slot) pair. -/
def setNeedBind (s : UniformState) (stage : ShaderStage) (slotIndex : Nat)
    (v : Bool) : UniformState :=
  { s with needBind := fun a b =>
      if a = stage ∧ b = slotIndex then v else s.needBind a b }

/-- Embeds D3D12_INTERNAL_AcquireUniformBufferFromPool (lines 3885-3930):
a wrapper distinct from every live one, currentBlockSize, drawOffset and
writeOffset reset to zero, backing buffer mapped. -/
def D3D12_INTERNAL_AcquireUniformBufferFromPool (s : UniformState) :
    D3D12UniformBuffer × UniformState :=
  ({ id := s.nextId, writeOffset := 0, drawOffset := 0, currentBlockSize := 0 },
   { s with
       nextId := s.nextId + 1
       mapped := fun i => if i = s.nextId then true else s.mapped i })

/-- Embeds the SDL_memcpy of line 4010: writes the data bytes into the
backing buffer with the given id starting at the given offset. -/
def writeBytes (m : Nat → Nat → Nat) (bufId : Nat) : Nat → List Nat → (Nat → Nat → Nat)
  | _, [] => m
  | off, byte :: rest =>
      writeBytes (fun i o => if i = bufId ∧ o = off then byte else m i o) bufId (off + 1) rest

/-- Embeds D3D12_INTERNAL_Align (lines 810-813) on Uint32:
(location + (alignment - 1)) masked with the complement of (alignment - 1). -/
def D3D12_INTERNAL_Align (location alignment : Nat) : Nat :=
  ((location + (alignment - 1)) % 4294967296) &&& (4294967295 - (alignment - 1))

/-- Embeds D3D12_INTERNAL_PushUniformData (lines 3947-4026).  Step order
follows the source: acquire a wrapper if the slot has none; store the
256-aligned block size in the currentBlockSize field of that wrapper; if
writeOffset + currentBlockSize reaches size, unmap the old backing buffer
and acquire a fresh wrapper with offsets reset (whose currentBlockSize the
acquisition has reset to zero, as at line 3916); snapshot
drawOffset := writeOffset; copy the data bytes at writeOffset; advance
writeOffset by the currentBlockSize of the wrapper now in the slot; set
the needs-rebind flag. -/
def D3D12_INTERNAL_PushUniformData (size : Nat) (stage : ShaderStage) (slotIndex : Nat)
    (data : List Nat) (s : UniformState) : UniformState :=
  let acquired :=
    match s.uniformBuffers stage slotIndex with
    | some u => (u, s)
    | none =>
        let p := D3D12_INTERNAL_AcquireUniformBufferFromPool s
        (p.1, setSlot p.2 stage slotIndex p.1)
  let u1 := { acquired.1 with currentBlockSize := D3D12_INTERNAL_Align data.length 256 }
  let s1 := setSlot acquired.2 stage slotIndex u1
  let rotated :=
    if size ≤ u1.writeOffset + u1.currentBlockSize then
      let sUnmap := { s1 with mapped := fun i => if i = u1.id then false else s1.mapped i }
      let p := D3D12_INTERNAL_AcquireUniformBufferFromPool sUnmap
      let v := { p.1 with drawOffset := 0, writeOffset := 0 }
      (v, setSlot p.2 stage slotIndex v)
    else (u1, s1)
  let u2 := { rotated.1 with drawOffset := rotated.1.writeOffset }
  let s2 := setSlot
    { rotated.2 with mem := writeBytes rotated.2.mem u2.id u2.writeOffset data }
    stage slotIndex u2
  let u3 := { u2 with writeOffset := u2.writeOffset + u2.currentBlockSize }
  setNeedBind (setSlot s2 stage slotIndex u3) stage slotIndex true

/-- Embeds the uniform-buffer portion of D3D12_BindGraphicsPipeline
(lines 4063-4080): every vertex and fragment uniform slot below
MAX_UNIFORM_BUFFERS_PER_STAGE (a parameter here, defined in SDL_sysgpu.h)
is flagged for rebind, and a wrapper is acquired for every slot the
pipeline declares that has none. -/
def D3D12_BindGraphicsPipeline (maxSlots vertexCount fragmentCount : Nat)
    (s : UniformState) : UniformState :=
  let s0 := { s with
    vertexUniformBufferCount := vertexCount
    fragmentUniformBufferCount := fragmentCount }
  let s1 := (List.range maxSlots).foldl
    (fun st i => setNeedBind (setNeedBind st ShaderStage.vertex i true) ShaderStage.fragment i true) s0
  let s2 := (List.range vertexCount).foldl
    (fun st i =>
      match st.uniformBuffers ShaderStage.vertex i with
      | some _ => st
      | none =>
          let p := D3D12_INTERNAL_AcquireUniformBufferFromPool st
          setSlot p.2 ShaderStage.vertex i p.1) s1
  (List.range fragmentCount).foldl
    (fun st i =>
      match st.uniformBuffers ShaderStage.fragment i with
      | some _ => st
      | none =>
          let p := D3D12_INTERNAL_AcquireUniformBufferFromPool st
          setSlot p.2 ShaderStage.fragment i p.1) s2

/-- The uniform-slot loop of D3D12_INTERNAL_BindGraphicsResources for one
stage (lines 4423-4433 for vertex and the symmetric fragment loop): for
every flagged slot, when the current pipeline declares it, set the root
CBV to virtualAddress + drawOffset of the wrapper in the slot; clear the
flag whether or not the slot is declared. -/
def bindUniformCBVs (stage : ShaderStage) (declaredCount maxSlots : Nat)
    (s : UniformState) : UniformState :=
  (List.range maxSlots).foldl
    (fun st i =>
      if st.needBind stage i then
        let st1 :=
          if i < declaredCount then
            match st.uniformBuffers stage i with
            | some u =>
                { st with boundCBV := fun a b =>
                    if a = stage ∧ b = i then some (u.id, u.drawOffset) else st.boundCBV a b }
            | none => st
          else st
        setNeedBind st1 stage i false
      else st) s

/-- Embeds the uniform-buffer portion of D3D12_INTERNAL_BindGraphicsResources
(lines 4336-4520), run before every draw: the vertex loop then the
fragment loop.  The descriptor-table groups of the same function touch no
uniform-buffer state and are not represented. -/
def D3D12_INTERNAL_BindGraphicsResources (maxSlots : Nat) (s : UniformState) : UniformState :=
  bindUniformCBVs ShaderStage.fragment s.fragmentUniformBufferCount maxSlots
    (bindUniformCBVs ShaderStage.vertex s.vertexUniformBufferCount maxSlots s)

/-- Embeds the uniform-buffer unmap loop at the head of D3D12_Submit
(lines 6796-6815): for every slot below MAX_UNIFORM_BUFFERS_PER_STAGE the
vertex and the fragment wrapper backing buffers are unmapped; the compute
array is not visited - the source holds only a TODO comment there. -/
def unmapSlot (s : UniformState) (stage : ShaderStage) (i : Nat) : UniformState :=
  match s.uniformBuffers stage i with
  | some u => { s with mapped := fun j => if j = u.id then false else s.mapped j }
  | none => s

/-- The complete unmap phase of D3D12_Submit, before the command list is
closed and executed. -/
def D3D12_Submit_unmapUniformBuffers (maxSlots : Nat) (s : UniformState) : UniformState :=
  (List.range maxSlots).foldl
    (fun st i => unmapSlot (unmapSlot st ShaderStage.vertex i) ShaderStage.fragment i) s

/-! ## Swapchain acquisition (C4) -/

/-- SDL_GpuPresentMode. -/
inductive SDL_GpuPresentMode where
  | IMMEDIATE
  | VSYNC
  | MAILBOX
deriving DecidableEq

/-- Embeds the fence-relevant fields of D3D12WindowData: an identity for
the window, the requested present mode, the frame counter and the
in-flight fence array (fences carried by identity; length
MAX_FRAMES_IN_FLIGHT, a constant of SDL_sysgpu.h). -/
structure D3D12WindowData where
  windowId : Nat
  presentMode : SDL_GpuPresentMode
  frameCounter : Nat
  inFlightFences : List (Option Nat)
deriving DecidableEq

/-- Result of a swapchain acquisition that proceeds: the updated window
data, the present list of the command buffer with the new
(window, swapchain index) entry, and the fences on which
D3D12_ReleaseFence was called. -/
structure AcquireOutcome where
  windowData : D3D12WindowData
  presentDatas : List (Nat × Nat)
  releasedFences : List Nat
deriving DecidableEq

/-- Embeds the fence handling and present-list enlisting of
D3D12_AcquireSwapchainTexture (lines 6474-6560), after the resize check
and with the native back-buffer query succeeding; signalled gives the
completed-value test of D3D12_QueryFence, and currentBackBufferIndex the
result of GetCurrentBackBufferIndex.  In VSYNC mode an unsignalled fence
is waited on (D3D12_WaitForFences blocks until it is signalled) and the
call proceeds; in IMMEDIATE or MAILBOX mode an unsignalled fence makes the
call return null (none) with the window untouched.  Whenever the call
proceeds past a non-null fence, the fence is released and the slot
nulled before the back-buffer index is used. -/
def D3D12_AcquireSwapchainTexture (signalled : Nat → Bool) (currentBackBufferIndex : Nat)
    (presentDatas : List (Nat × Nat)) (w : D3D12WindowData) : Option AcquireOutcome :=
  match w.inFlightFences.getD w.frameCounter none with
  | some f =>
      if w.presentMode = SDL_GpuPresentMode.VSYNC ∨ signalled f then
        some
          { windowData := { w with inFlightFences := w.inFlightFences.set w.frameCounter none }
            presentDatas := presentDatas ++ [(w.windowId, currentBackBufferIndex)]
            releasedFences := [f] }
      else none
  | none =>
      some
        { windowData := w
          presentDatas := presentDatas ++ [(w.windowId, currentBackBufferIndex)]
          releasedFences := [] }

/-! ## Render-pass clears (C6) -/

/-- SDL_GpuLoadOp (SDL_gpu.h lines 76-81). -/
inductive SDL_GpuLoadOp where
  | LOAD
  | CLEAR
  | DONT_CARE
deriving DecidableEq

/-- The fields of SDL_GpuColorAttachmentInfo that decide cycling and
clearing in D3D12_BeginRenderPass. -/
structure SDL_GpuColorAttachmentInfo where
  loadOp : SDL_GpuLoadOp
  cycle : Bool
deriving DecidableEq

/-- The fields of SDL_GpuDepthStencilAttachmentInfo that decide cycling
and clearing in D3D12_BeginRenderPass. -/
structure SDL_GpuDepthStencilAttachmentInfo where
  loadOp : SDL_GpuLoadOp
  stencilLoadOp : SDL_GpuLoadOp
  cycle : Bool
deriving DecidableEq

/-- The clear commands D3D12_BeginRenderPass records on the native command
list, in order. -/
inductive RenderPassClearCommand where
  | clearRenderTargetView (attachmentIndex : Nat)
  | clearDepthStencilView (clearDepth clearStencil : Bool)
deriving DecidableEq

/-- The effective cycle flag of a color attachment (lines 3741-3746):
forced false when loadOp is LOAD, otherwise the callers flag. -/
def colorAttachmentEffectiveCycle (info : SDL_GpuColorAttachmentInfo) : Bool :=
  if info.loadOp = SDL_GpuLoadOp.LOAD then false else info.cycle

/-- The effective cycle flag of the depth-stencil attachment
(lines 3780-3788): forced false when either aspect loads. -/
def depthStencilEffectiveCycle (info : SDL_GpuDepthStencilAttachmentInfo) : Bool :=
  if info.loadOp = SDL_GpuLoadOp.LOAD ∨ info.stencilLoadOp = SDL_GpuLoadOp.LOAD then false
  else info.cycle

/-- Embeds the clear emission of D3D12_BeginRenderPass (lines 3740-3823):
per color attachment, ClearRenderTargetView is recorded when its loadOp is
CLEAR (line 3758); for the optional depth-stencil attachment,
ClearDepthStencilView is recorded when loadOp or stencilLoadOp is LOAD,
with the depth flag when loadOp is LOAD and the stencil flag when
stencilLoadOp is LOAD (lines 3799-3818). -/
def D3D12_BeginRenderPass_clearCommands (colorInfos : List SDL_GpuColorAttachmentInfo)
    (depthStencilInfo : Option SDL_GpuDepthStencilAttachmentInfo) :
    List RenderPassClearCommand :=
  (colorInfos.enum.filterMap
    (fun p =>
      if p.2.loadOp = SDL_GpuLoadOp.CLEAR then
        some (RenderPassClearCommand.clearRenderTargetView p.1)
      else none)) ++
  (match depthStencilInfo with
   | some info =>
       if info.loadOp = SDL_GpuLoadOp.LOAD ∨ info.stencilLoadOp = SDL_GpuLoadOp.LOAD then
         [RenderPassClearCommand.clearDepthStencilView
           (info.loadOp = SDL_GpuLoadOp.LOAD)
           (info.stencilLoadOp = SDL_GpuLoadOp.LOAD)]
       else []
   | none => [])

/-! ## Theorems -/

/-- C3: for every texture usage-flag set the default resource state is the
first matching row of the specification table in the listed priority order
(sampler or graphics-storage-read, then color-target, then
depth-stencil-target, then compute-storage-read, then
compute-storage-write), and for every buffer usage-flag set the analogous
buffer table holds (vertex, then index, then indirect, then
graphics-storage-read, then compute-storage-read, then
compute-storage-write). -/
theorem C3_default_resource_states :
    (∀ (f : TextureUsageFlags) (s : ResourceState),
      specTextureDefaultState f = some s →
      D3D12_INTERNAL_DefaultTextureResourceState f = s) ∧
    (∀ (f : BufferUsageFlags) (s : ResourceState),
      specBufferDefaultState f = some s →
      D3D12_INTERNAL_DefaultBufferResourceState f = s) := by
  constructor <;> intro f s h <;> obtain ⟨a, b, c, d, e, g, k⟩ := f <;>
    cases a <;> cases b <;> cases c <;> cases d <;> cases e <;> cases g <;> cases k <;>
      first
        | exact Option.some.inj h
        | exact Option.noConfusion h

/-- Witness for C3 at concrete usage-flag sets: a sampler texture defaults
to all-shader-resource and an indirect buffer to indirect-argument. -/
theorem C3_default_resource_states_witness :
    D3D12_INTERNAL_DefaultTextureResourceState
        ⟨true, false, false, false, false, false, false⟩ = ResourceState.allShaderResource ∧
    D3D12_INTERNAL_DefaultBufferResourceState
        ⟨false, false, true, false, false, false, false⟩ = ResourceState.indirectArgument :=
  ⟨C3_default_resource_states.1 ⟨true, false, false, false, false, false, false⟩
      ResourceState.allShaderResource (by decide),
   C3_default_resource_states.2 ⟨false, false, true, false, false, false, false⟩
      ResourceState.indirectArgument (by decide)⟩

/-- C8: staging-heap allocation pops the most recently released index when
the free list is non-empty (LIFO: release immediately followed by
allocation on the same heap yields the released index), falls back to the
bump cursor when the free list is empty and the cursor has room, and when
both are exhausted returns the invalid descriptor (index SDL_MAX_UINT32,
null handle) leaving the heap bookkeeping unchanged. -/
theorem C8_staging_descriptor_allocation :
    (∀ (heapId : Nat) (h : D3D12DescriptorHeap) (i : Nat) (rest : List Nat),
      h.inactiveDescriptorIndices = i :: rest →
      D3D12_INTERNAL_AssignCpuDescriptorHandle heapId h =
        ({ h with inactiveDescriptorIndices := rest },
         { heap := some heapId
           cpuHandle := h.descriptorHeapCPUStart + i * h.descriptorSize
           cpuHandleIndex := i })) ∧
    (∀ (heapId : Nat) (h : D3D12DescriptorHeap),
      h.inactiveDescriptorIndices = [] →
      h.currentDescriptorIndex < h.maxDescriptors →
      D3D12_INTERNAL_AssignCpuDescriptorHandle heapId h =
        ({ h with currentDescriptorIndex := h.currentDescriptorIndex + 1 },
         { heap := some heapId
           cpuHandle := h.descriptorHeapCPUStart + h.currentDescriptorIndex * h.descriptorSize
           cpuHandleIndex := h.currentDescriptorIndex })) ∧
    (∀ (heapId : Nat) (h : D3D12DescriptorHeap),
      h.inactiveDescriptorIndices = [] →
      ¬ h.currentDescriptorIndex < h.maxDescriptors →
      D3D12_INTERNAL_AssignCpuDescriptorHandle heapId h =
        (h, { heap := some heapId, cpuHandle := 0, cpuHandleIndex := SDL_MAX_UINT32 })) ∧
    (∀ (heaps : Nat → D3D12DescriptorHeap) (d : D3D12CPUDescriptor) (hid : Nat),
      d.heap = some hid →
      ((D3D12_INTERNAL_AssignCpuDescriptorHandle hid
          ((D3D12_INTERNAL_ReleaseCpuDescriptorHandle heaps d).1 hid)).2).cpuHandleIndex =
        d.cpuHandleIndex) := by
  refine ⟨?_, ?_, ?_, ?_⟩
  · intro heapId h i rest hfree
    simp [D3D12_INTERNAL_AssignCpuDescriptorHandle, hfree]
  · intro heapId h hfree hlt
    simp [D3D12_INTERNAL_AssignCpuDescriptorHandle, hfree, hlt]
  · intro heapId h hfree hge
    simp [D3D12_INTERNAL_AssignCpuDescriptorHandle, hfree, hge]
  · intro heaps d hid hd
    simp [D3D12_INTERNAL_ReleaseCpuDescriptorHandle, hd,
      D3D12_INTERNAL_AssignCpuDescriptorHandle]

/-- Witness for C8 on a concrete heap: free-list pop, cursor bump,
exhaustion, and release-then-allocate LIFO reuse. -/
theorem C8_staging_descriptor_allocation_witness :
    D3D12_INTERNAL_AssignCpuDescriptorHandle 0
        { maxDescriptors := 4, descriptorSize := 2, descriptorHeapCPUStart := 100
          currentDescriptorIndex := 3, inactiveDescriptorIndices := [7, 5] } =
      ({ maxDescriptors := 4, descriptorSize := 2, descriptorHeapCPUStart := 100
         currentDescriptorIndex := 3, inactiveDescriptorIndices := [5] },
       { heap := some 0, cpuHandle := 114, cpuHandleIndex := 7 }) ∧
    D3D12_INTERNAL_AssignCpuDescriptorHandle 0
        { maxDescriptors := 4, descriptorSize := 2, descriptorHeapCPUStart := 100
          currentDescriptorIndex := 3, inactiveDescriptorIndices := [] } =
      ({ maxDescriptors := 4, descriptorSize := 2, descriptorHeapCPUStart := 100
         currentDescriptorIndex := 4, inactiveDescriptorIndices := [] },
       { heap := some 0, cpuHandle := 106, cpuHandleIndex := 3 }) ∧
    D3D12_INTERNAL_AssignCpuDescriptorHandle 0
        { maxDescriptors := 4, descriptorSize := 2, descriptorHeapCPUStart := 100
          currentDescriptorIndex := 4, inactiveDescriptorIndices := [] } =
      ({ maxDescriptors := 4, descriptorSize := 2, descriptorHeapCPUStart := 100
         currentDescriptorIndex := 4, inactiveDescriptorIndices := [] },
       { heap := some 0, cpuHandle := 0, cpuHandleIndex := SDL_MAX_UINT32 }) ∧
    ((D3D12_INTERNAL_AssignCpuDescriptorHandle 9
        ((D3D12_INTERNAL_ReleaseCpuDescriptorHandle
            (fun _ =>
              { maxDescriptors := 4, descriptorSize := 2, descriptorHeapCPUStart := 100
                currentDescriptorIndex := 3, inactiveDescriptorIndices := [5] })
            { heap := some 9, cpuHandle := 102, cpuHandleIndex := 1 }).1 9)).2).cpuHandleIndex = 1 :=
  ⟨C8_staging_descriptor_allocation.1 0 _ 7 [5] rfl,
   C8_staging_descriptor_allocation.2.1 0 _ rfl (by decide),
   C8_staging_descriptor_allocation.2.2.1 0 _ rfl (by decide),
   C8_staging_descriptor_allocation.2.2.2 _ _ 9 rfl⟩

/-- C10: releasing a CPU descriptor whose heap field is already none
pushes nothing onto any staging heap and only re-assigns the invalidated
field values, so releasing the same descriptor twice in a row leaves every
heap - and the descriptor - exactly as releasing it once does. -/
theorem C10_release_descriptor_idempotent :
    ∀ (heaps : Nat → D3D12DescriptorHeap) (d : D3D12CPUDescriptor),
      D3D12_INTERNAL_ReleaseCpuDescriptorHandle
          (D3D12_INTERNAL_ReleaseCpuDescriptorHandle heaps d).1
          (D3D12_INTERNAL_ReleaseCpuDescriptorHandle heaps d).2 =
        D3D12_INTERNAL_ReleaseCpuDescriptorHandle heaps d ∧
      ((D3D12_INTERNAL_ReleaseCpuDescriptorHandle heaps d).2).heap = none := by
  intro heaps d
  cases hd : d.heap <;> simp [D3D12_INTERNAL_ReleaseCpuDescriptorHandle, hd]

/-- Setting an in-range position and reading it back with getD yields the
written element. -/
theorem getD_set_self {α : Type} (l : List α) (i : Nat) (a d : α) (h : i < l.length) :
    (l.set i a).getD i d = a := by
  induction l generalizing i with
  | nil => simp at h
  | cons b rest ih =>
      cases i with
      | zero => rfl
      | succ j => exact ih j (Nat.lt_of_succ_lt_succ h)

/-- Reading the appended element of a one-element append with getD. -/
theorem getD_append_length {α : Type} (l : List α) (a d : α) :
    (l ++ [a]).getD l.length d = a := by
  induction l with
  | nil => rfl
  | cons b rest ih => exact ih

/-- The scan of D3D12_INTERNAL_CycleActiveBuffer finds an in-range buffer
whose reference count is zero. -/
theorem firstZeroRefIndex_some {l : List D3D12Buffer} {i : Nat}
    (h : firstZeroRefIndex l = some i) :
    i < l.length ∧ ∀ d, (l.getD i d).referenceCount = 0 := by
  induction l generalizing i with
  | nil => simp [firstZeroRefIndex] at h
  | cons b rest ih =>
      by_cases hb : b.referenceCount = 0
      · simp [firstZeroRefIndex, hb] at h
        subst h
        exact ⟨Nat.succ_pos _, fun d => hb⟩
      · simp [firstZeroRefIndex, hb] at h
        obtain ⟨j, hj, hij⟩ := h
        subst hij
        exact ⟨Nat.succ_lt_succ (ih hj).1, fun d => (ih hj).2 d⟩

/-- When every buffer of the list is in flight the scan finds nothing. -/
theorem firstZeroRefIndex_none_of_pos {l : List D3D12Buffer}
    (h : ∀ b ∈ l, 0 < b.referenceCount) : firstZeroRefIndex l = none := by
  induction l with
  | nil => rfl
  | cons b rest ih =>
      have hb : ¬ b.referenceCount = 0 := Nat.pos_iff_ne_zero.mp (h b (by simp))
      simp [firstZeroRefIndex, hb, ih (fun x hx => h x (by simp [hx]))]

/-- The scan of D3D12_INTERNAL_CycleActiveTexture finds an in-range
texture whose summed reference count is zero. -/
theorem firstZeroTotalIndex_some {l : List D3D12Texture} {i : Nat}
    (h : firstZeroTotalIndex l = some i) :
    i < l.length ∧ ∀ d, refCountTotal (l.getD i d) = 0 := by
  induction l generalizing i with
  | nil => simp [firstZeroTotalIndex] at h
  | cons t rest ih =>
      by_cases ht : refCountTotal t = 0
      · simp [firstZeroTotalIndex, ht] at h
        subst h
        exact ⟨Nat.succ_pos _, fun d => ht⟩
      · simp [firstZeroTotalIndex, ht] at h
        obtain ⟨j, hj, hij⟩ := h
        subst hij
        exact ⟨Nat.succ_lt_succ (ih hj).1, fun d => (ih hj).2 d⟩

/-- When every texture of the list is in flight the scan finds nothing. -/
theorem firstZeroTotalIndex_none_of_pos {l : List D3D12Texture}
    (h : ∀ t ∈ l, 0 < refCountTotal t) : firstZeroTotalIndex l = none := by
  induction l with
  | nil => rfl
  | cons t rest ih =>
      have ht : ¬ refCountTotal t = 0 := Nat.pos_iff_ne_zero.mp (h t (by simp))
      simp [firstZeroTotalIndex, ht, ih (fun x hx => h x (by simp [hx]))]

/-- Every entry of a list of naturals summing to zero is zero. -/
theorem getD_eq_zero_of_sum_eq_zero {l : List Nat} (h : l.sum = 0) (i : Nat) :
    l.getD i 0 = 0 := by
  induction l generalizing i with
  | nil => cases i <;> rfl
  | cons a rest ih =>
      have ha := Nat.add_eq_zero.mp (by simpa using h)
      cases i with
      | zero => exact ha.1
      | succ j => exact ih ha.2 j

/-- A replicated zero list sums to zero. -/
theorem sum_replicate_zero (n : Nat) : (List.replicate n 0).sum = 0 := by
  induction n with
  | zero => rfl
  | succ m ih => simp [ih]

/-- Marking the active buffer transitioned does not move the active index
and does not change the list length. -/
theorem markActiveTransitioned_length (c : D3D12BufferContainer) :
    (markActiveTransitioned c).buffers.length = c.buffers.length := by
  simp [markActiveTransitioned]

/-- On a container whose active index is in range, marking the active
buffer transitioned only flips its transitioned flag. -/
theorem activeBuffer_markActiveTransitioned (c : D3D12BufferContainer)
    (h : c.activeIndex < c.buffers.length) :
    activeBuffer (markActiveTransitioned c) = { activeBuffer c with transitioned := true } := by
  unfold markActiveTransitioned activeBuffer
  exact getD_set_self _ _ _ _ h

/-- C1 (amended): for every buffer container, and for every texture
container whose canBeCycled flag is true, a Prepare-for-write call with
cycle = true whose target resource is in flight and for which any needed
new-resource creation succeeds switches the active resource of the
container to one whose reference count (summed over the sub-resources for
textures) is zero: the first already-listed resource with zero count when
one exists, otherwise a freshly created resource built from the stored
usage flags, size and type (or create-info) appended to the list.  When
cycle = false, or the target count is zero, or the texture container has
canBeCycled = false (swapchain textures), the active resource is left
unchanged.  Consequently, under those premises, no prepared-for-write
resource was in flight at preparation time. -/
theorem C1_prepare_for_write_cycles_to_unreferenced :
    (∀ c : D3D12BufferContainer, 0 < (activeBuffer c).referenceCount →
      (∀ i, firstZeroRefIndex c.buffers = some i →
        (D3D12_INTERNAL_PrepareBufferForWrite true true c).activeIndex = i ∧
        (D3D12_INTERNAL_PrepareBufferForWrite true true c).buffers.length =
          c.buffers.length ∧
        (activeBuffer (D3D12_INTERNAL_PrepareBufferForWrite true true c)).referenceCount = 0) ∧
      (firstZeroRefIndex c.buffers = none →
        (D3D12_INTERNAL_PrepareBufferForWrite true true c).activeIndex = c.buffers.length ∧
        (D3D12_INTERNAL_PrepareBufferForWrite true true c).buffers.length =
          c.buffers.length + 1 ∧
        activeBuffer (D3D12_INTERNAL_PrepareBufferForWrite true true c) =
          { D3D12_INTERNAL_CreateBuffer c.usageFlags c.size c.type with transitioned := true } ∧
        (activeBuffer (D3D12_INTERNAL_PrepareBufferForWrite true true c)).referenceCount = 0)) ∧
    (∀ (createOk : Bool) (c : D3D12BufferContainer),
      (D3D12_INTERNAL_PrepareBufferForWrite createOk false c).activeIndex = c.activeIndex) ∧
    (∀ (createOk : Bool) (c : D3D12BufferContainer),
      (activeBuffer c).referenceCount = 0 →
      (D3D12_INTERNAL_PrepareBufferForWrite createOk true c).activeIndex = c.activeIndex) ∧
    (∀ (c : D3D12TextureContainer) (layer level : Nat),
      c.canBeCycled = true →
      0 < D3D12_INTERNAL_FetchTextureSubresource c layer level →
      (∀ i, firstZeroTotalIndex c.textures = some i →
        (D3D12_INTERNAL_PrepareTextureSubresourceForWrite true c layer level true).activeIndex =
          i ∧
        (D3D12_INTERNAL_PrepareTextureSubresourceForWrite true c layer level true).textures.length =
          c.textures.length ∧
        refCountTotal
          (activeTexture (D3D12_INTERNAL_PrepareTextureSubresourceForWrite true c layer level true)) = 0 ∧
        D3D12_INTERNAL_FetchTextureSubresource
          (D3D12_INTERNAL_PrepareTextureSubresourceForWrite true c layer level true) layer level = 0) ∧
      (firstZeroTotalIndex c.textures = none →
        (D3D12_INTERNAL_PrepareTextureSubresourceForWrite true c layer level true).activeIndex =
          c.textures.length ∧
        (D3D12_INTERNAL_PrepareTextureSubresourceForWrite true c layer level true).textures.length =
          c.textures.length + 1 ∧
        activeTexture (D3D12_INTERNAL_PrepareTextureSubresourceForWrite true c layer level true) =
          D3D12_INTERNAL_CreateTexture c.info ∧
        D3D12_INTERNAL_FetchTextureSubresource
          (D3D12_INTERNAL_PrepareTextureSubresourceForWrite true c layer level true) layer level = 0)) ∧
    (∀ (createOk : Bool) (c : D3D12TextureContainer) (layer level : Nat),
      c.canBeCycled = false →
      D3D12_INTERNAL_PrepareTextureSubresourceForWrite createOk c layer level true = c) ∧
    (∀ (createOk : Bool) (c : D3D12TextureContainer) (layer level : Nat),
      D3D12_INTERNAL_PrepareTextureSubresourceForWrite createOk c layer level false = c) ∧
    (∀ (createOk : Bool) (c : D3D12TextureContainer) (layer level : Nat),
      D3D12_INTERNAL_FetchTextureSubresource c layer level = 0 →
      D3D12_INTERNAL_PrepareTextureSubresourceForWrite createOk c layer level true = c) := by
  refine ⟨?_, ?_, ?_, ?_, ?_, ?_, ?_⟩
  · intro c hpos
    have hprep : D3D12_INTERNAL_PrepareBufferForWrite true true c =
        markActiveTransitioned (D3D12_INTERNAL_CycleActiveBuffer true c) := by
      simp [D3D12_INTERNAL_PrepareBufferForWrite, hpos]
    constructor
    · intro i hfind
      have hcy : D3D12_INTERNAL_CycleActiveBuffer true c = { c with activeIndex := i } := by
        simp [D3D12_INTERNAL_CycleActiveBuffer, hfind]
      obtain ⟨hilt, hzero⟩ := firstZeroRefIndex_some hfind
      rw [hprep, hcy]
      have hmark := activeBuffer_markActiveTransitioned { c with activeIndex := i }
        (by simpa using hilt)
      refine ⟨rfl, markActiveTransitioned_length _, ?_⟩
      rw [hmark]
      exact hzero _
    · intro hfind
      have hcy : D3D12_INTERNAL_CycleActiveBuffer true c =
          { c with
              buffers := c.buffers ++ [D3D12_INTERNAL_CreateBuffer c.usageFlags c.size c.type]
              activeIndex := c.buffers.length } := by
        simp [D3D12_INTERNAL_CycleActiveBuffer, hfind]
      rw [hprep, hcy]
      have hactive : activeBuffer
          { c with
              buffers := c.buffers ++ [D3D12_INTERNAL_CreateBuffer c.usageFlags c.size c.type]
              activeIndex := c.buffers.length } =
          D3D12_INTERNAL_CreateBuffer c.usageFlags c.size c.type := by
        simp [activeBuffer, getD_append_length]
      have hmark := activeBuffer_markActiveTransitioned
        { c with
            buffers := c.buffers ++ [D3D12_INTERNAL_CreateBuffer c.usageFlags c.size c.type]
            activeIndex := c.buffers.length }
        (by simp)
      rw [hactive] at hmark
      refine ⟨rfl, by simp [markActiveTransitioned_length], hmark, ?_⟩
      rw [hmark]
      rfl
  · intro createOk c
    simp [D3D12_INTERNAL_PrepareBufferForWrite, markActiveTransitioned]
  · intro createOk c hzero
    simp [D3D12_INTERNAL_PrepareBufferForWrite, hzero, markActiveTransitioned]
  · intro c layer level hcyc hpos
    have hprep : D3D12_INTERNAL_PrepareTextureSubresourceForWrite true c layer level true =
        D3D12_INTERNAL_CycleActiveTexture true c := by
      simp [D3D12_INTERNAL_PrepareTextureSubresourceForWrite, hcyc, hpos]
    constructor
    · intro i hfind
      have hcy : D3D12_INTERNAL_CycleActiveTexture true c = { c with activeIndex := i } := by
        simp [D3D12_INTERNAL_CycleActiveTexture, hfind]
      obtain ⟨hilt, hzero⟩ := firstZeroTotalIndex_some hfind
      rw [hprep, hcy]
      have htot : refCountTotal (activeTexture ({ c with activeIndex := i } :
          D3D12TextureContainer)) = 0 := hzero _
      exact ⟨rfl, rfl, htot, getD_eq_zero_of_sum_eq_zero htot _⟩
    · intro hfind
      have hcy : D3D12_INTERNAL_CycleActiveTexture true c =
          { c with
              textures := c.textures ++ [D3D12_INTERNAL_CreateTexture c.info]
              activeIndex := c.textures.length } := by
        simp [D3D12_INTERNAL_CycleActiveTexture, hfind]
      rw [hprep, hcy]
      have hactive : activeTexture
          { c with
              textures := c.textures ++ [D3D12_INTERNAL_CreateTexture c.info]
              activeIndex := c.textures.length } = D3D12_INTERNAL_CreateTexture c.info := by
        simp [activeTexture, getD_append_length]
      have htot : refCountTotal (activeTexture
          { c with
              textures := c.textures ++ [D3D12_INTERNAL_CreateTexture c.info]
              activeIndex := c.textures.length }) = 0 := by
        rw [hactive]
        exact sum_replicate_zero _
      exact ⟨rfl, by simp, hactive, getD_eq_zero_of_sum_eq_zero htot _⟩
  · intro createOk c layer level hcyc
    simp [D3D12_INTERNAL_PrepareTextureSubresourceForWrite, hcyc]
  · intro createOk c layer level
    simp [D3D12_INTERNAL_PrepareTextureSubresourceForWrite]
  · intro createOk c layer level hzero
    simp [D3D12_INTERNAL_PrepareTextureSubresourceForWrite, hzero]

/-- A vertex-buffer container holding one in-flight concrete buffer and
one idle concrete buffer, used to instantiate the cycling theorem. -/
def cycleWitnessBufferContainer : D3D12BufferContainer :=
  { usageFlags := ⟨true, false, false, false, false, false, false⟩
    size := 1024
    type := D3D12BufferType.gpu
    buffers :=
      [{ usageFlags := ⟨true, false, false, false, false, false, false⟩, size := 1024,
         type := D3D12BufferType.gpu, referenceCount := 1, transitioned := true },
       { usageFlags := ⟨true, false, false, false, false, false, false⟩, size := 1024,
         type := D3D12BufferType.gpu, referenceCount := 0, transitioned := true }]
    activeIndex := 0 }

/-- Witness for C1: preparing the concrete two-buffer container with
cycle = true while its active buffer is in flight selects the idle listed
buffer, whose reference count is zero. -/
theorem C1_prepare_for_write_cycles_to_unreferenced_witness :
    (D3D12_INTERNAL_PrepareBufferForWrite true true cycleWitnessBufferContainer).activeIndex = 1 ∧
    (activeBuffer
        (D3D12_INTERNAL_PrepareBufferForWrite true true cycleWitnessBufferContainer)).referenceCount = 0 :=
  ⟨((C1_prepare_for_write_cycles_to_unreferenced.1 cycleWitnessBufferContainer
      (by decide)).1 1 (by decide)).1,
   ((C1_prepare_for_write_cycles_to_unreferenced.1 cycleWitnessBufferContainer
      (by decide)).1 1 (by decide)).2.2⟩

/-- A swapchain-style texture container: canBeCycled is false and its only
sub-resource is in flight. -/
def swapchainLikeContainer : D3D12TextureContainer :=
  { info := { width := 640, height := 480, depth := 1, layerCount := 1, levelCount := 1,
              usageFlags := ⟨false, true, false, false, false, false, false⟩ }
    canBeCycled := false
    textures := [{ subresourceRefCounts := [1] }]
    activeIndex := 0 }

/-- Counterexample to C1 as stated: on a texture container with
canBeCycled = false, a prepare-for-write with cycle = true whose target
sub-resource is in flight leaves the container - and its in-flight active
resource - unchanged, so the prepared sub-resource still has reference
count one, not zero. -/
theorem C1_counterexample :
    0 < D3D12_INTERNAL_FetchTextureSubresource swapchainLikeContainer 0 0 ∧
    D3D12_INTERNAL_PrepareTextureSubresourceForWrite true swapchainLikeContainer 0 0 true =
      swapchainLikeContainer ∧
    D3D12_INTERNAL_FetchTextureSubresource
        (D3D12_INTERNAL_PrepareTextureSubresourceForWrite true swapchainLikeContainer 0 0 true)
        0 0 = 1 := by
  decide

/-- C9: when the cycle scan finds no idle concrete resource and creating a
new one fails, the cycle operation is atomic in failure - the active
index, the resource list and its count are left exactly as they were -
and the subsequent write in the prepare-for-write path targets the
previous, still in-flight active resource. -/
theorem C9_cycle_creation_failure_atomic :
    (∀ c : D3D12BufferContainer,
      c.activeIndex < c.buffers.length →
      (∀ b ∈ c.buffers, 0 < b.referenceCount) →
      D3D12_INTERNAL_CycleActiveBuffer false c = c ∧
      (D3D12_INTERNAL_PrepareBufferForWrite false true c).activeIndex = c.activeIndex ∧
      (activeBuffer (D3D12_INTERNAL_PrepareBufferForWrite false true c)).referenceCount =
        (activeBuffer c).referenceCount) ∧
    (∀ (c : D3D12TextureContainer) (layer level : Nat),
      (∀ t ∈ c.textures, 0 < refCountTotal t) →
      D3D12_INTERNAL_CycleActiveTexture false c = c ∧
      D3D12_INTERNAL_PrepareTextureSubresourceForWrite false c layer level true = c) := by
  constructor
  · intro c hrange hall
    have hnone := firstZeroRefIndex_none_of_pos hall
    have hcy : D3D12_INTERNAL_CycleActiveBuffer false c = c := by
      simp [D3D12_INTERNAL_CycleActiveBuffer, hnone]
    have hpr : D3D12_INTERNAL_PrepareBufferForWrite false true c = markActiveTransitioned c := by
      by_cases hpos : 0 < (activeBuffer c).referenceCount
      · simp [D3D12_INTERNAL_PrepareBufferForWrite, hpos, hcy]
      · simp [D3D12_INTERNAL_PrepareBufferForWrite, hpos]
    refine ⟨hcy, by rw [hpr]; rfl, ?_⟩
    rw [hpr, activeBuffer_markActiveTransitioned c hrange]
  · intro c layer level hall
    have hnone := firstZeroTotalIndex_none_of_pos hall
    have hcy : D3D12_INTERNAL_CycleActiveTexture false c = c := by
      simp [D3D12_INTERNAL_CycleActiveTexture, hnone]
    refine ⟨hcy, ?_⟩
    by_cases hcb : c.canBeCycled = true
    · by_cases hpos : 0 < D3D12_INTERNAL_FetchTextureSubresource c layer level
      · simp [D3D12_INTERNAL_PrepareTextureSubresourceForWrite, hcb, hpos, hcy]
      · simp [D3D12_INTERNAL_PrepareTextureSubresourceForWrite, hcb, hpos]
    · simp [D3D12_INTERNAL_PrepareTextureSubresourceForWrite, hcb]

/-- Witness for C9: a container whose single concrete buffer is in flight
is returned unchanged by a failing cycle, and a texture container whose
single texture is in flight likewise. -/
theorem C9_cycle_creation_failure_atomic_witness :
    D3D12_INTERNAL_CycleActiveBuffer false
        { usageFlags := ⟨true, false, false, false, false, false, false⟩, size := 256,
          type := D3D12BufferType.gpu,
          buffers := [{ usageFlags := ⟨true, false, false, false, false, false, false⟩,
                        size := 256, type := D3D12BufferType.gpu,
                        referenceCount := 2, transitioned := true }],
          activeIndex := 0 } =
      { usageFlags := ⟨true, false, false, false, false, false, false⟩, size := 256,
        type := D3D12BufferType.gpu,
        buffers := [{ usageFlags := ⟨true, false, false, false, false, false, false⟩,
                      size := 256, type := D3D12BufferType.gpu,
                      referenceCount := 2, transitioned := true }],
        activeIndex := 0 } ∧
    D3D12_INTERNAL_PrepareTextureSubresourceForWrite false swapchainLikeContainer 0 0 true =
      swapchainLikeContainer :=
  ⟨(C9_cycle_creation_failure_atomic.1 _ (by decide) (by decide)).1,
   (C9_cycle_creation_failure_atomic.2 swapchainLikeContainer 0 0 (by decide)).2⟩

/-- An empty recording state: no wrappers, no flags, all backing memory
zero, nothing mapped. -/
def uniformStateInit : UniformState :=
  { nextId := 0
    mem := fun _ _ => 0
    mapped := fun _ => false
    uniformBuffers := fun _ _ => none
    needBind := fun _ _ => false
    boundCBV := fun _ _ => none
    vertexUniformBufferCount := 0
    fragmentUniformBufferCount := 0 }

/-- Trace step 1: bind a graphics pipeline declaring one vertex uniform
slot and no fragment uniform slots, with four slots per stage and a pool
element size of 512 bytes for the whole trace.  The bind acquires the
wrapper with id 0 for vertex slot 0. -/
def uniformTrace1 : UniformState := D3D12_BindGraphicsPipeline 4 1 0 uniformStateInit

/-- Trace step 2: push one byte (value 1) to vertex slot 0.  The block is
256 bytes; the write lands at offset 0 of buffer 0 and writeOffset
advances to 256. -/
def uniformTrace2 : UniformState :=
  D3D12_INTERNAL_PushUniformData 512 ShaderStage.vertex 0 [1] uniformTrace1

/-- Trace step 3: push one byte (value 2) to vertex slot 0.  Since
256 + 256 reaches the pool element size 512, the wrapper rotates to the
fresh buffer 1 and the byte lands at offset 0 of buffer 1. -/
def uniformTrace3 : UniformState :=
  D3D12_INTERNAL_PushUniformData 512 ShaderStage.vertex 0 [2] uniformTrace2

/-- Trace step 4: a draw flushes its bindings, setting the root CBV of
vertex slot 0 from the drawOffset snapshot. -/
def uniformTrace4 : UniformState := D3D12_INTERNAL_BindGraphicsResources 4 uniformTrace3

/-- Trace step 5: push one byte (value 3) to vertex slot 0 after the
draw. -/
def uniformTrace5 : UniformState :=
  D3D12_INTERNAL_PushUniformData 512 ShaderStage.vertex 0 [3] uniformTrace4

/-- C2 evaluated at the failing input: the push of trace step 3 triggers a
wrapper rotation, and because D3D12_INTERNAL_AcquireUniformBufferFromPool
has reset currentBlockSize of the fresh wrapper to zero, the final
writeOffset advance adds zero - the wrapper ends with writeOffset 0
instead of the 256-byte block the claim requires.  The draw of step 4
therefore snapshots the root CBV at (buffer 1, offset 0) where byte 2
lies, and the next push to the same slot (step 5) snapshots the same
offset and overwrites that byte with 3: the draw no longer reads the most
recent push before it. -/
theorem C2_rotation_push_loses_write_offset :
    uniformTrace2.uniformBuffers ShaderStage.vertex 0 =
      some { id := 0, writeOffset := 256, drawOffset := 0, currentBlockSize := 256 } ∧
    D3D12_INTERNAL_Align 1 256 = 256 ∧
    uniformTrace3.uniformBuffers ShaderStage.vertex 0 =
      some { id := 1, writeOffset := 0, drawOffset := 0, currentBlockSize := 0 } ∧
    uniformTrace4.boundCBV ShaderStage.vertex 0 = some (1, 0) ∧
    uniformTrace4.mem 1 0 = 2 ∧
    uniformTrace5.uniformBuffers ShaderStage.vertex 0 =
      some { id := 1, writeOffset := 256, drawOffset := 0, currentBlockSize := 256 } ∧
    uniformTrace5.mem 1 0 = 3 := by
  decide

/-- Counterexample to C5 as stated: at trace step 3 the wrapper has
writeOffset 256 and the 256-byte block makes writeOffset + block equal to
the pool element size 512 exactly - not strictly exceed it - yet the push
rotates: a fresh wrapper (id 1, from the bumped counter) replaces the
current one and the old backing buffer 0 is unmapped, where the claim
requires the push to be written into the current wrapper without
rotating. -/
theorem C5_counterexample :
    (uniformTrace2.uniformBuffers ShaderStage.vertex 0).map D3D12UniformBuffer.writeOffset =
      some 256 ∧
    D3D12_INTERNAL_Align 1 256 = 256 ∧
    ¬ (256 + 256 > 512) ∧
    (uniformTrace2.uniformBuffers ShaderStage.vertex 0).map D3D12UniformBuffer.id = some 0 ∧
    (uniformTrace3.uniformBuffers ShaderStage.vertex 0).map D3D12UniformBuffer.id = some 1 ∧
    uniformTrace3.nextId = uniformTrace2.nextId + 1 ∧
    uniformTrace2.mapped 0 = true ∧
    uniformTrace3.mapped 0 = false := by
  decide

/-- C5 (amended): during a uniform push to a slot that already holds a
wrapper, the data length is rounded up to 256 bytes to form the block, and
a new wrapper is acquired - offsets reset to zero, the old backing buffer
unmapped - exactly when writeOffset + block is greater than or equal to
the pool element size; in particular a push for which writeOffset + block
equals the pool element size exactly also rotates.  When
writeOffset + block is below the size, the push stays in the current
wrapper: drawOffset snapshots the old writeOffset and writeOffset
advances by the block. -/
theorem C5_push_rotation_condition :
    ∀ (size : Nat) (s : UniformState) (stage : ShaderStage) (slotIndex : Nat)
      (data : List Nat) (u : D3D12UniformBuffer),
      s.uniformBuffers stage slotIndex = some u →
      u.id ≠ s.nextId →
      (size ≤ u.writeOffset + D3D12_INTERNAL_Align data.length 256 →
        (D3D12_INTERNAL_PushUniformData size stage slotIndex data s).uniformBuffers stage slotIndex =
          some { id := s.nextId, writeOffset := 0, drawOffset := 0, currentBlockSize := 0 } ∧
        (D3D12_INTERNAL_PushUniformData size stage slotIndex data s).nextId = s.nextId + 1 ∧
        (D3D12_INTERNAL_PushUniformData size stage slotIndex data s).mapped u.id = false) ∧
      (¬ size ≤ u.writeOffset + D3D12_INTERNAL_Align data.length 256 →
        (D3D12_INTERNAL_PushUniformData size stage slotIndex data s).uniformBuffers stage slotIndex =
          some { id := u.id
                 writeOffset := u.writeOffset + D3D12_INTERNAL_Align data.length 256
                 drawOffset := u.writeOffset
                 currentBlockSize := D3D12_INTERNAL_Align data.length 256 } ∧
        (D3D12_INTERNAL_PushUniformData size stage slotIndex data s).nextId = s.nextId ∧
        (D3D12_INTERNAL_PushUniformData size stage slotIndex data s).mapped u.id =
          s.mapped u.id) := by
  intro size s stage slotIndex data u hsome hfresh
  constructor
  · intro hrot
    simp [D3D12_INTERNAL_PushUniformData, hsome, hrot, setSlot, setNeedBind,
      D3D12_INTERNAL_AcquireUniformBufferFromPool, hfresh]
  · intro hstay
    simp [D3D12_INTERNAL_PushUniformData, hsome, hstay, setSlot, setNeedBind,
      D3D12_INTERNAL_AcquireUniformBufferFromPool]

/-- Witness for C5 at trace step 3: the slot of trace step 2 holds the
wrapper with id 0 and writeOffset 256, a one-byte push has block 256, so
512 is reached exactly and the rotation case applies: the fresh-counter
test shows one acquisition happened. -/
theorem C5_push_rotation_condition_witness :
    (D3D12_INTERNAL_PushUniformData 512 ShaderStage.vertex 0 [2] uniformTrace2).nextId =
      uniformTrace2.nextId + 1 :=
  ((C5_push_rotation_condition 512 uniformTrace2 ShaderStage.vertex 0 [2]
      { id := 0, writeOffset := 256, drawOffset := 0, currentBlockSize := 256 }
      (by decide) (by decide)).1 (by decide)).2.1

/-- A command-buffer state about to be submitted: one vertex, one fragment
and one compute uniform wrapper, each with its backing buffer (ids 0, 1
and 2) currently mapped. -/
def submitUniformState : UniformState :=
  { nextId := 3
    mem := fun _ _ => 0
    mapped := fun _ => true
    uniformBuffers := fun st i =>
      if st = ShaderStage.vertex ∧ i = 0 then
        some { id := 0, writeOffset := 256, drawOffset := 0, currentBlockSize := 256 }
      else if st = ShaderStage.fragment ∧ i = 0 then
        some { id := 1, writeOffset := 256, drawOffset := 0, currentBlockSize := 256 }
      else if st = ShaderStage.compute ∧ i = 0 then
        some { id := 2, writeOffset := 256, drawOffset := 0, currentBlockSize := 256 }
      else none
    needBind := fun _ _ => false
    boundCBV := fun _ _ => none
    vertexUniformBufferCount := 1
    fragmentUniformBufferCount := 1 }

/-- C7 evaluated at the failing input: the unmap phase of D3D12_Submit
unmaps the vertex and fragment uniform backing buffers but leaves the
compute uniform backing buffer mapped - the loop body carries only a TODO
comment for compute uniforms - contradicting the claim that every
uniform buffer used by the command buffer, compute included, is unmapped
before the command list is closed and executed. -/
theorem C7_submit_leaves_compute_uniforms_mapped :
    (D3D12_Submit_unmapUniformBuffers 4 submitUniformState).mapped 0 = false ∧
    (D3D12_Submit_unmapUniformBuffers 4 submitUniformState).mapped 1 = false ∧
    (D3D12_Submit_unmapUniformBuffers 4 submitUniformState).mapped 2 = true ∧
    submitUniformState.uniformBuffers ShaderStage.compute 0 =
      some { id := 2, writeOffset := 256, drawOffset := 0, currentBlockSize := 256 } := by
  decide

/-- C4: when the current frame slot holds an in-flight fence, VSYNC mode
waits on it and always proceeds; immediate or mailbox mode queries it
without blocking and returns null with the window untouched when it is
not yet signalled; and whenever the call proceeds the fence is released
and the slot nulled, after which the (window, back-buffer index) pair is
appended to the present list of the command buffer.  A frame slot with no
fence proceeds directly with no release. -/
theorem C4_acquire_swapchain_fence_policy :
    ∀ (signalled : Nat → Bool) (idx : Nat) (pd : List (Nat × Nat)) (w : D3D12WindowData),
      (∀ f, w.inFlightFences.getD w.frameCounter none = some f →
        (w.presentMode = SDL_GpuPresentMode.VSYNC →
          D3D12_AcquireSwapchainTexture signalled idx pd w =
            some { windowData :=
                     { w with inFlightFences := w.inFlightFences.set w.frameCounter none }
                   presentDatas := pd ++ [(w.windowId, idx)]
                   releasedFences := [f] }) ∧
        (w.presentMode ≠ SDL_GpuPresentMode.VSYNC → signalled f = false →
          D3D12_AcquireSwapchainTexture signalled idx pd w = none) ∧
        (signalled f = true →
          D3D12_AcquireSwapchainTexture signalled idx pd w =
            some { windowData :=
                     { w with inFlightFences := w.inFlightFences.set w.frameCounter none }
                   presentDatas := pd ++ [(w.windowId, idx)]
                   releasedFences := [f] })) ∧
      (w.inFlightFences.getD w.frameCounter none = none →
        D3D12_AcquireSwapchainTexture signalled idx pd w =
          some { windowData := w
                 presentDatas := pd ++ [(w.windowId, idx)]
                 releasedFences := [] }) := by
  intro signalled idx pd w
  constructor
  · intro f hf
    rw [List.getD_eq_getElem?_getD] at hf
    refine ⟨?_, ?_, ?_⟩
    · intro hmode
      simp [D3D12_AcquireSwapchainTexture, hf, hmode]
    · intro hmode hsig
      simp [D3D12_AcquireSwapchainTexture, hf, hmode, hsig]
    · intro hsig
      simp [D3D12_AcquireSwapchainTexture, hf, hsig]
  · intro hf
    rw [List.getD_eq_getElem?_getD] at hf
    simp [D3D12_AcquireSwapchainTexture, hf]

/-- Witness for C4 on a concrete two-slot VSYNC window whose current slot
fence (id 7) is not signalled: the call still proceeds, releasing fence 7
and clearing the slot. -/
theorem C4_acquire_swapchain_fence_policy_witness :
    D3D12_AcquireSwapchainTexture (fun _ => false) 1 []
        { windowId := 5, presentMode := SDL_GpuPresentMode.VSYNC, frameCounter := 0,
          inFlightFences := [some 7, none] } =
      some { windowData :=
               { windowId := 5, presentMode := SDL_GpuPresentMode.VSYNC, frameCounter := 0,
                 inFlightFences := [none, none] }
             presentDatas := [(5, 1)]
             releasedFences := [7] } :=
  ((C4_acquire_swapchain_fence_policy (fun _ => false) 1 []
      { windowId := 5, presentMode := SDL_GpuPresentMode.VSYNC, frameCounter := 0,
        inFlightFences := [some 7, none] }).1 7 (by decide)).1 (by decide)

/-- C6 evaluated at the failing inputs: a color attachment clear is
emitted exactly for loadOp CLEAR, but the depth-stencil clear of
D3D12_BeginRenderPass is keyed on LOAD - a depth-stencil attachment whose
depth loadOp is CLEAR gets no ClearDepthStencilView, while one whose
depth loadOp is LOAD (data to be preserved, per the SDL_gpu.h contract) is
cleared with the depth flag - contradicting the claim that the clear, and
its per-aspect flags, follow the CLEAR ops. -/
theorem C6_depth_stencil_clear_keyed_on_load :
    D3D12_BeginRenderPass_clearCommands
        [{ loadOp := SDL_GpuLoadOp.CLEAR, cycle := true }]
        (some { loadOp := SDL_GpuLoadOp.CLEAR, stencilLoadOp := SDL_GpuLoadOp.DONT_CARE,
                cycle := true }) =
      [RenderPassClearCommand.clearRenderTargetView 0] ∧
    D3D12_BeginRenderPass_clearCommands []
        (some { loadOp := SDL_GpuLoadOp.LOAD, stencilLoadOp := SDL_GpuLoadOp.DONT_CARE,
                cycle := false }) =
      [RenderPassClearCommand.clearDepthStencilView true false] ∧
    D3D12_BeginRenderPass_clearCommands []
        (some { loadOp := SDL_GpuLoadOp.DONT_CARE, stencilLoadOp := SDL_GpuLoadOp.LOAD,
                cycle := false }) =
      [RenderPassClearCommand.clearDepthStencilView false true] := by
  decide
